import Mathlib

/-!
Verification of the transfer-approval workflow of the stablecoin banking API.

The definitions below are a shallow embedding of the transfer router
(`getApprovalRequirements`, `POST /initiate`, `POST /:transferId/approve`,
`GET /:transferId/status`, `GET /pending`) together with the database rows
they touch (`bank_users`, `roles`, `approval_rules`, `transaction_records`,
`transfer_approvals`).  Amounts are modelled as rationals (SQL DECIMAL /
JS number), ids as naturals, SQL text as `String`.

Database-level behaviour that the handlers rely on is modelled explicitly:

* Bound text parameters compared against the INTEGER column
  `transaction_records.transaction_id` undergo SQLite integer affinity:
  a digit string (leading zeros allowed) matches the integer it denotes,
  any other text matches no row.  This is `sqliteIntOfText`.

* `PRAGMA foreign_keys = ON` is set by `database/connection.js`, and
  `transfer_approvals.transfer_id` carries a foreign key referencing
  `transaction_records(transaction_id)`.  An INSERT whose `transfer_id`
  text does not (after integer affinity) match an existing transaction id
  throws, which the route catches and turns into a 500 response with no
  state change.  This is the `fkTransferOk` guard in `approve`.
-/

/-- Row of `bank_users` (the columns the transfer router reads). -/
structure BankUser where
  user_id : String
  bank_id : Nat
  role : String
  status : String
deriving DecidableEq

/-- Row of `roles` (the columns the transfer router reads). -/
structure Role where
  bank_id : Nat
  role_name : String
  role_level : Int
deriving DecidableEq

/-- Row of `approval_rules`.  `max_amount` is NULL-able (`none` = unbounded).
`required_approvals` is a signed INTEGER: the rule endpoints validate
neither sign nor range (create checks only for a defined value, update
COALESCEs whatever is sent), so negative values are storable. -/
structure ApprovalRule where
  bank_id : Nat
  min_amount : ℚ
  max_amount : Option ℚ
  required_role_level : Int
  required_approvals : Int
  auto_approve : Bool
deriving DecidableEq

/-- Row of `transaction_records` (the columns the transfer router touches).
`timestamp` and `approval_deadline` are milliseconds since epoch. -/
structure TransferRec where
  transaction_id : Nat
  amount : ℚ
  timestamp : Nat
  status : String
  initiated_by : String
  approval_status : String
  required_approvals : Int
  current_approvals : Nat
  approval_deadline : Nat
deriving DecidableEq

/-- Row of `transfer_approvals`.  `transfer_id` is the raw TEXT value the
route inserted (the unmodified `:transferId` path parameter). -/
structure ApprovalRecord where
  transfer_id : String
  approver_user_id : String
  approved_at : Nat
  comments : String
deriving DecidableEq

/-- The database state the transfer router operates on.  `logic_configured`
models whether `core_stablecoin_logic_box` has at least one row (the schema
seeds one; initiation fails with a 500 if the table is empty). -/
structure DB where
  bank_users : List BankUser
  roles : List Role
  approval_rules : List ApprovalRule
  transfers : List TransferRec
  transfer_approvals : List ApprovalRecord
  logic_configured : Bool
deriving DecidableEq

/-- SQLite integer affinity applied to a bound text parameter compared
against the INTEGER `transaction_id` column: a nonempty digit string
(leading zeros allowed) converts to the integer it denotes and matches
that row; any other text matches no integer key.  (Texts denoting
non-integral numbers are not modelled; no claim depends on them.) -/
def sqliteIntOfText (s : String) : Option Nat :=
  if s.data ≠ [] ∧ s.data.all (fun ch => ch.isDigit) then
    some (s.data.foldl (fun n ch => n * 10 + (ch.toNat - 48)) 0)
  else none

/-- SELECT from `transaction_records` by integer key. -/
def findTransfer (db : DB) (k : Nat) : Option TransferRec :=
  db.transfers.find? (fun t => t.transaction_id == k)

/-- SELECT from `transaction_records` with a text parameter
(`WHERE transaction_id = ?`), applying integer affinity. -/
def lookupTransfer (db : DB) (s : String) : Option TransferRec :=
  match sqliteIntOfText s with
  | none => none
  | some k => findTransfer db k

/-- UPDATE of the row of `transaction_records` with the given integer key. -/
def updateTransfer (db : DB) (k : Nat) (f : TransferRec → TransferRec) : DB :=
  { db with transfers := db.transfers.map (fun t => if t.transaction_id == k then f t else t) }

/-- UPDATE of `transaction_records` addressed by a text parameter. -/
def updateTransferByText (db : DB) (s : String) (f : TransferRec → TransferRec) : DB :=
  match sqliteIntOfText s with
  | none => db
  | some k => updateTransfer db k f

/-- SELECT from `bank_users` (`WHERE user_id = ? AND bank_id = ?`). -/
def findUser (db : DB) (uid : String) (bankId : Nat) : Option BankUser :=
  db.bank_users.find? (fun u => u.user_id == uid && u.bank_id == bankId)

/-- SELECT from `roles` (`WHERE bank_id = ? AND role_name = ?`). -/
def findRole (db : DB) (bankId : Nat) (name : String) : Option Role :=
  db.roles.find? (fun r => r.bank_id == bankId && r.role_name == name)

/-- SELECT from `transfer_approvals`
(`WHERE transfer_id = ? AND approver_user_id = ?`); both columns are TEXT,
so the comparison is plain string equality on the stored raw values. -/
def findApproval (db : DB) (tid uid : String) : Option ApprovalRecord :=
  db.transfer_approvals.find? (fun a => a.transfer_id == tid && a.approver_user_id == uid)

/-- The foreign-key check run by SQLite when a row is inserted into
`transfer_approvals`: the new `transfer_id` text must match (after integer
affinity) the `transaction_id` of some existing transaction record. -/
def fkTransferOk (db : DB) (tid : String) : Bool :=
  (lookupTransfer db tid).isSome

/-- WHERE clause of the rule query in `getApprovalRequirements`:
`bank_id = ? AND min_amount <= ? AND (max_amount IS NULL OR max_amount >= ?)`. -/
def ruleMatches (bankId : Nat) (amount : ℚ) (r : ApprovalRule) : Bool :=
  r.bank_id == bankId && decide (r.min_amount ≤ amount) &&
    (match r.max_amount with
     | none => true
     | some m => decide (amount ≤ m))

/-- `ORDER BY min_amount DESC LIMIT 1` over a list of rows: pick a row whose
`min_amount` is maximal (ties broken by position, which SQL leaves open). -/
def selectRule : List ApprovalRule → Option ApprovalRule
  | [] => none
  | r :: rs =>
    match selectRule rs with
    | none => some r
    | some best => if best.min_amount < r.min_amount then some r else some best

/-- The part of a resolved rule the router reads afterwards.  The JS
fallback object carries exactly these three fields. -/
structure ResolvedRule where
  auto_approve : Bool
  required_approvals : Int
  required_role_level : Int
deriving DecidableEq

/-- Projection of a stored rule onto the fields the router reads. -/
def ApprovalRule.toResolved (r : ApprovalRule) : ResolvedRule :=
  { auto_approve := r.auto_approve
    required_approvals := r.required_approvals
    required_role_level := r.required_role_level }

/-- The synthetic fallback returned when no rule matches:
`{ auto_approve: true, required_approvals: 0, required_role_level: 1 }`. -/
def fallbackRule : ResolvedRule :=
  { auto_approve := true, required_approvals := 0, required_role_level := 1 }

/-- `getApprovalRequirements(bankId, amount)` from the transfer router. -/
def getApprovalRequirements (db : DB) (bankId : Nat) (amount : ℚ) : ResolvedRule :=
  match selectRule (db.approval_rules.filter (ruleMatches bankId amount)) with
  | some r => r.toResolved
  | none => fallbackRule

/-- The distinct error responses of the transfer router, one constructor per
`res.status(...).json(...)` error site. -/
inductive ApiError where
  | missingFields
  | nonPositiveAmount
  | invalidUser
  | invalidApprover
  | transferNotFound
  | alreadyCompleted
  | noApprovalNeeded
  | duplicateApproval
  | insufficientRoleLevel (required : Int) (approver_level : Option Int)
  | logicNotConfigured
  | internalError
deriving DecidableEq

/-- The HTTP status code each error site responds with (read off the
`res.status(...)` calls in the router source). -/
def ApiError.httpStatus : ApiError → Nat
  | .missingFields => 400
  | .nonPositiveAmount => 400
  | .invalidUser => 403
  | .invalidApprover => 403
  | .transferNotFound => 404
  | .alreadyCompleted => 400
  | .noApprovalNeeded => 400
  | .duplicateApproval => 400
  | .insufficientRoleLevel _ _ => 403
  | .logicNotConfigured => 500
  | .internalError => 500

/-- Outcome of a route: an error response or a success payload. -/
inductive ApiResult (α : Type) where
  | err (e : ApiError)
  | ok (a : α)
deriving DecidableEq

/-- JS falsiness of an optional string field (`!x` is true for a missing
field and for the empty string). -/
def strFalsy : Option String → Bool
  | none => true
  | some s => s == ""

/-- JS falsiness of an optional numeric field (`!x` is true for a missing
field and for zero). -/
def numFalsy : Option ℚ → Bool
  | none => true
  | some a => a == 0

/-- The string constant `transfer_` used by the routes. -/
def transferMarker : String :=
  "transfer_"

/-- The default comment the approval route stores (`comments || "Approved"`). -/
def defaultComments : String :=
  "Approved"

/-- The empty string. -/
def emptyString : String :=
  ""

/-- Helper for `stripFirst`: if `pat` is an initial segment of the second
list, return the remainder, otherwise `none`. -/
def dropPattern : List Char → List Char → Option (List Char)
  | [], cs => some cs
  | _ :: _, [] => none
  | p :: ps, c :: cs => if p == c then dropPattern ps cs else none

/-- Helper for `stripFirst`: remove the first occurrence of `pat`. -/
def removeFirstOcc (pat : List Char) : List Char → List Char
  | [] => []
  | c :: cs =>
    match dropPattern pat (c :: cs) with
    | some rest => rest
    | none => c :: removeFirstOcc pat cs

/-- JS `s.replace(pat, "")` for a plain-string pattern: remove the first
occurrence of `pat` from `s` (later occurrences stay). -/
def stripFirst (s pat : String) : String :=
  String.mk (removeFirstOcc pat.data s.data)

/-- `comments || "Approved"`: JS falsiness on the optional comment. -/
def commentsOrDefault (c : Option String) : String :=
  if strFalsy c then defaultComments else c.getD emptyString

/-- AUTOINCREMENT key for a fresh `transaction_records` row (no transfer is
ever deleted, so this is one more than the largest key in use). -/
def nextTransactionId (db : DB) : Nat :=
  (db.transfers.map (fun t => t.transaction_id)).foldr max 0 + 1

/-- Request body of `POST /api/transfers/initiate`. -/
structure InitiateRequest where
  fromWalletId : Option String
  toWalletId : Option String
  amount : Option ℚ
  currency : Option String
  initiated_by : Option String
deriving DecidableEq

/-- Body validation of `POST /initiate`:
`!fromWalletId || !toWalletId || !amount || !currency || !initiated_by`. -/
def initiateFieldsMissing (req : InitiateRequest) : Bool :=
  strFalsy req.fromWalletId || strFalsy req.toWalletId || numFalsy req.amount ||
    strFalsy req.currency || strFalsy req.initiated_by

/-- The `transaction_records` row created by a successful initiation: the
INSERT near the end of the `/initiate` handler.  `required_approvals` is
the resolved rule value: `approvalRule.required_approvals || 0` maps a
zero to zero and keeps every other integer (all nonzero numbers,
negative ones included, are truthy), so over the integers it is the
identity; the deadline is 30 seconds out for the auto-approved path and
24 hours otherwise. -/
def mkInitiated (db : DB) (bankId : Nat) (req : InitiateRequest) (now : Nat) : TransferRec :=
  let amount := req.amount.getD 0
  let rule := getApprovalRequirements db bankId amount
  let auto := rule.auto_approve
  { transaction_id := nextTransactionId db
    amount := amount
    timestamp := now
    status := if auto then "processing" else "pending_approval"
    initiated_by := req.initiated_by.getD emptyString
    approval_status := if auto then "auto_approved" else "pending_approval"
    required_approvals := rule.required_approvals
    current_approvals := 0
    approval_deadline := if auto then now + 30000 else now + 24 * 60 * 60 * 1000 }

/-- `POST /api/transfers/initiate` (sync variant, `authenticateBank` already
resolved to `bankId`).  Returns the updated database and the created
transfer row (the success payload echoes that row) or the error response.
`now` is the current epoch time in milliseconds. -/
def initiate (db : DB) (bankId : Nat) (req : InitiateRequest) (now : Nat) :
    DB × ApiResult TransferRec :=
  if initiateFieldsMissing req then (db, .err .missingFields)
  else
    let amount := req.amount.getD 0
    if amount ≤ 0 then (db, .err .nonPositiveAmount)
    else
      match findUser db (req.initiated_by.getD emptyString) bankId with
      | none => (db, .err .invalidUser)
      | some user =>
        if user.status != "active" then (db, .err .invalidUser)
        else
          if !db.logic_configured then (db, .err .logicNotConfigured)
          else
            ({ db with transfers := db.transfers ++ [mkInitiated db bankId req now] },
              .ok (mkInitiated db bankId req now))

/-- Success payload of the approval route. -/
structure ApproveResponse where
  transfer_id : String
  current_approvals : Nat
  required_approvals : Int
  status : String
deriving DecidableEq

/-- The write phase of the approval route once every check has passed:
the ledger INSERT, the `current_approvals` UPDATE, and (when the threshold
is reached) the status/approval_status UPDATE. -/
def approveEffects (db : DB) (transferId auid : String) (comments : Option String)
    (now : Nat) (transfer : TransferRec) : DB :=
  let db1 := { db with transfer_approvals := db.transfer_approvals ++
    [{ transfer_id := transferId, approver_user_id := auid,
       approved_at := now, comments := commentsOrDefault comments }] }
  let newCount := transfer.current_approvals + 1
  let numericId := stripFirst transferId transferMarker
  let db2 := updateTransferByText db1 numericId
    (fun t => { t with current_approvals := newCount })
  if transfer.required_approvals ≤ (transfer.current_approvals + 1 : Int) then
    updateTransferByText db2 numericId
      (fun t => { t with status := "processing", approval_status := "approved" })
  else db2

/-- `POST /api/transfers/:transferId/approve` (sync variant).  Follows the
route line by line: body validation, the six ordered checks, then (inside
the same request) the ledger INSERT — which is subject to the foreign-key
check, a failure of which lands in the catch block as a 500 with nothing
persisted — and the two UPDATE statements. -/
def approve (db : DB) (bankId : Nat) (transferId : String)
    (approver_user_id : Option String) (comments : Option String) (now : Nat) :
    DB × ApiResult ApproveResponse :=
  if strFalsy approver_user_id then (db, .err .missingFields)
  else
    let auid := approver_user_id.getD emptyString
    match findUser db auid bankId with
    | none => (db, .err .invalidApprover)
    | some approver =>
      if approver.status != "active" then (db, .err .invalidApprover)
      else
        let numericId := stripFirst transferId transferMarker
        match lookupTransfer db numericId with
        | none => (db, .err .transferNotFound)
        | some transfer =>
          if transfer.status == "completed" then (db, .err .alreadyCompleted)
          else if transfer.approval_status == "auto_approved" then (db, .err .noApprovalNeeded)
          else if (findApproval db transferId auid).isSome then (db, .err .duplicateApproval)
          else
            let rule := getApprovalRequirements db bankId transfer.amount
            match findRole db bankId approver.role with
            | none => (db, .err (.insufficientRoleLevel rule.required_role_level none))
            | some role =>
              if role.role_level < rule.required_role_level then
                (db, .err (.insufficientRoleLevel rule.required_role_level (some role.role_level)))
              else if fkTransferOk db transferId then
                (approveEffects db transferId auid comments now transfer, .ok
                  { transfer_id := transferId
                    current_approvals := transfer.current_approvals + 1
                    required_approvals := transfer.required_approvals
                    status := if transfer.required_approvals ≤ (transfer.current_approvals + 1 : Int)
                      then "approved" else "pending_approval" })
              else (db, .err .internalError)

/-- The deferred settlement step (the `setTimeout` body): mark the transfer
with the given integer key `completed`. -/
def settle (db : DB) (k : Nat) : DB :=
  updateTransfer db k (fun t => { t with status := "completed" })

/-- Value of the `percentage` field as serialized by the status route:
either a finite integer or the JS value `Infinity`. -/
inductive Percent where
  | val (n : Int)
  | infinite
deriving DecidableEq

/-- `Math.round((current_approvals / required_approvals) * 100) || 0` under
JS number semantics: `0/0` is `NaN` (falsy, so `|| 0` yields `0`),
`c/0` for `c > 0` is `Infinity` (truthy, so it survives `|| 0`), and
otherwise the rounded ratio (also `0` after `|| 0` when it is `0`). -/
def jsPercentage (current : Nat) (required : Int) : Percent :=
  if required = 0 then
    if current = 0 then .val 0 else .infinite
  else .val (round ((current : ℚ) / (required : ℚ) * 100))

/-- Success payload of `GET /:transferId/status` (the fields the claims
mention). -/
structure StatusResponse where
  transfer_id : Nat
  status : String
  approval_status : String
  current_approvals : Nat
  required_approvals : Int
  approvals : List ApprovalRecord
  percentage : Percent
deriving DecidableEq

/-- `GET /api/transfers/:transferId/status` (sync variant).  A pure read:
it runs only SELECT statements.  The approvals list is the JOIN of
`transfer_approvals` (matched on the raw text id) with `bank_users`
(records whose approver row is missing drop out of the inner join). -/
def getStatus (db : DB) (transferId : String) : ApiResult StatusResponse :=
  let numericId := stripFirst transferId transferMarker
  match lookupTransfer db numericId with
  | none => .err .transferNotFound
  | some t =>
    let approvals := (db.transfer_approvals.filter
      (fun a => a.transfer_id == transferId)).filter
        (fun a => (db.bank_users.find? (fun u => u.user_id == a.approver_user_id)).isSome)
    .ok
      { transfer_id := t.transaction_id
        status := t.status
        approval_status := t.approval_status
        current_approvals := t.current_approvals
        required_approvals := t.required_approvals
        approvals := approvals
        percentage := jsPercentage t.current_approvals t.required_approvals }

/-- `GET /api/transfers/pending` (sync variant).  A pure read: transfers
with status `pending_approval` or `processing` initiated by a user of the
authenticated bank (row order modelled as table order; the claims do not
depend on the `ORDER BY timestamp DESC`). -/
def listPending (db : DB) (bankId : Nat) : ApiResult (List TransferRec) :=
  .ok (db.transfers.filter (fun t =>
    (t.status == "pending_approval" || t.status == "processing") &&
      (db.bank_users.find? (fun u => u.user_id == t.initiated_by && u.bank_id == bankId)).isSome))

/-!
The asynchronous variant of the transfer router is textually parallel to
the synchronous one but performs every database access through
`db.get` / `db.run` / `db.all` on the module exported by
`database/connection.js`.  That module exports a `better-sqlite3`
`Database`, which provides `prepare` and `exec` but none of those three
methods, so the first database access of every handler throws a
`TypeError`; each handler catches it and responds 500.  Only the request
body validation, which precedes the try block, behaves as in the
synchronous variant.
-/

/-- `POST /api/transfers/initiate`, asynchronous variant: body validation
as in the sync variant, then the first `db.get` call throws and the catch
block responds 500 with no state change. -/
def asyncInitiate (db : DB) (_bankId : Nat) (req : InitiateRequest) (_now : Nat) :
    DB × ApiResult TransferRec :=
  if initiateFieldsMissing req then (db, .err .missingFields)
  else if req.amount.getD 0 ≤ 0 then (db, .err .nonPositiveAmount)
  else (db, .err .internalError)

/-- `POST /api/transfers/:transferId/approve`, asynchronous variant. -/
def asyncApprove (db : DB) (_bankId : Nat) (_transferId : String)
    (approver_user_id : Option String) (_comments : Option String) (_now : Nat) :
    DB × ApiResult ApproveResponse :=
  if strFalsy approver_user_id then (db, .err .missingFields)
  else (db, .err .internalError)

/-- `GET /api/transfers/:transferId/status`, asynchronous variant. -/
def asyncGetStatus (_db : DB) (_transferId : String) : ApiResult StatusResponse :=
  .err .internalError

/-- `GET /api/transfers/pending`, asynchronous variant. -/
def asyncListPending (_db : DB) (_bankId : Nat) : ApiResult (List TransferRec) :=
  .err .internalError

/-- One request-level step of the workflow engine: a transfer initiation,
an approval, or a deferred settlement firing. -/
inductive Step : DB → DB → Prop
  | initiate (db : DB) (bankId : Nat) (req : InitiateRequest) (now : Nat) :
      Step db (initiate db bankId req now).1
  | approve (db : DB) (bankId : Nat) (transferId : String)
      (approver_user_id comments : Option String) (now : Nat) :
      Step db (approve db bankId transferId approver_user_id comments now).1
  | settle (db : DB) (k : Nat) : Step db (settle db k)

/-- Reflexive-transitive closure of `Step`: the states the router can reach
from a given database. -/
inductive Reachable : DB → DB → Prop
  | refl (db : DB) : Reachable db db
  | tail (db db1 db2 : DB) : Reachable db db1 → Step db1 db2 → Reachable db db2

/-! ### Characterization lemmas for the approval route -/

/-- Body validation: a falsy `approver_user_id` is rejected with 400 and no
state change. -/
theorem approve_of_missing (db : DB) (bankId : Nat) (tid : String)
    (a c : Option String) (now : Nat) (h : strFalsy a = true) :
    approve db bankId tid a c now = (db, .err .missingFields) := by
  unfold approve
  simp [h]

/-- Check 1 (no such user): rejected with `invalidApprover`, no state change. -/
theorem approve_of_no_user (db : DB) (bankId : Nat) (tid : String)
    (a c : Option String) (now : Nat) (h : strFalsy a = false)
    (hu : findUser db (a.getD emptyString) bankId = none) :
    approve db bankId tid a c now = (db, .err .invalidApprover) := by
  unfold approve
  simp [h, hu]

/-- Check 1 (inactive user): rejected with `invalidApprover`, no state change. -/
theorem approve_of_inactive (db : DB) (bankId : Nat) (tid : String)
    (a c : Option String) (now : Nat) (u : BankUser) (h : strFalsy a = false)
    (hu : findUser db (a.getD emptyString) bankId = some u)
    (hs : u.status ≠ "active") :
    approve db bankId tid a c now = (db, .err .invalidApprover) := by
  unfold approve
  simp [h, hu, hs]

/-- Check 2: unknown transfer id, rejected with 404, no state change. -/
theorem approve_of_not_found (db : DB) (bankId : Nat) (tid : String)
    (a c : Option String) (now : Nat) (u : BankUser) (h : strFalsy a = false)
    (hu : findUser db (a.getD emptyString) bankId = some u) (hs : u.status = "active")
    (ht : lookupTransfer db (stripFirst tid transferMarker) = none) :
    approve db bankId tid a c now = (db, .err .transferNotFound) := by
  unfold approve
  simp [h, hu, hs, ht]

/-- Check 3: transfer already completed, rejected with 400, no state change. -/
theorem approve_of_completed (db : DB) (bankId : Nat) (tid : String)
    (a c : Option String) (now : Nat) (u : BankUser) (t : TransferRec)
    (h : strFalsy a = false)
    (hu : findUser db (a.getD emptyString) bankId = some u) (hs : u.status = "active")
    (ht : lookupTransfer db (stripFirst tid transferMarker) = some t)
    (hc : t.status = "completed") :
    approve db bankId tid a c now = (db, .err .alreadyCompleted) := by
  unfold approve
  simp [h, hu, hs, ht, hc]

/-- Check 4: auto-approved transfer, rejected with 400, no state change. -/
theorem approve_of_auto (db : DB) (bankId : Nat) (tid : String)
    (a c : Option String) (now : Nat) (u : BankUser) (t : TransferRec)
    (h : strFalsy a = false)
    (hu : findUser db (a.getD emptyString) bankId = some u) (hs : u.status = "active")
    (ht : lookupTransfer db (stripFirst tid transferMarker) = some t)
    (hc : t.status ≠ "completed") (ha : t.approval_status = "auto_approved") :
    approve db bankId tid a c now = (db, .err .noApprovalNeeded) := by
  unfold approve
  simp [h, hu, hs, ht, hc, ha]

/-- Check 5: duplicate approval (same raw transfer id text and approver),
rejected, no state change. -/
theorem approve_of_duplicate (db : DB) (bankId : Nat) (tid : String)
    (a c : Option String) (now : Nat) (u : BankUser) (t : TransferRec)
    (h : strFalsy a = false)
    (hu : findUser db (a.getD emptyString) bankId = some u) (hs : u.status = "active")
    (ht : lookupTransfer db (stripFirst tid transferMarker) = some t)
    (hc : t.status ≠ "completed") (ha : t.approval_status ≠ "auto_approved")
    (hd : (findApproval db tid (a.getD emptyString)).isSome = true) :
    approve db bankId tid a c now = (db, .err .duplicateApproval) := by
  unfold approve
  simp [h, hu, hs, ht, hc, ha, hd]

/-- Check 6 (no role row or level too low): rejected with 403 reporting the
required and actual levels, no state change. -/
theorem approve_of_low_role (db : DB) (bankId : Nat) (tid : String)
    (a c : Option String) (now : Nat) (u : BankUser) (t : TransferRec)
    (h : strFalsy a = false)
    (hu : findUser db (a.getD emptyString) bankId = some u) (hs : u.status = "active")
    (ht : lookupTransfer db (stripFirst tid transferMarker) = some t)
    (hc : t.status ≠ "completed") (ha : t.approval_status ≠ "auto_approved")
    (hd : (findApproval db tid (a.getD emptyString)).isSome = false) :
    (findRole db bankId u.role = none →
      approve db bankId tid a c now = (db, .err (.insufficientRoleLevel
        (getApprovalRequirements db bankId t.amount).required_role_level none))) ∧
    (∀ role, findRole db bankId u.role = some role →
      role.role_level < (getApprovalRequirements db bankId t.amount).required_role_level →
      approve db bankId tid a c now = (db, .err (.insufficientRoleLevel
        (getApprovalRequirements db bankId t.amount).required_role_level
        (some role.role_level)))) := by
  constructor
  · intro hr
    unfold approve
    simp [h, hu, hs, ht, hc, ha, hd, hr]
  · intro role hr hlt
    unfold approve
    simp [h, hu, hs, ht, hc, ha, hd, hr, hlt]

/-- All six checks passed but the ledger INSERT violates the foreign key
(the raw id text does not convert to an existing integer key): the route
responds 500 and persists nothing. -/
theorem approve_of_fk_violation (db : DB) (bankId : Nat) (tid : String)
    (a c : Option String) (now : Nat) (u : BankUser) (t : TransferRec) (role : Role)
    (h : strFalsy a = false)
    (hu : findUser db (a.getD emptyString) bankId = some u) (hs : u.status = "active")
    (ht : lookupTransfer db (stripFirst tid transferMarker) = some t)
    (hc : t.status ≠ "completed") (ha : t.approval_status ≠ "auto_approved")
    (hd : (findApproval db tid (a.getD emptyString)).isSome = false)
    (hr : findRole db bankId u.role = some role)
    (hge : ¬ role.role_level < (getApprovalRequirements db bankId t.amount).required_role_level)
    (hfk : fkTransferOk db tid = false) :
    approve db bankId tid a c now = (db, .err .internalError) := by
  unfold approve
  simp [h, hu, hs, ht, hc, ha, hd, hr, hge, hfk]

/-- All six checks passed and the INSERT satisfies the foreign key: the
approval is recorded, the counter incremented, and the threshold rule
applied. -/
theorem approve_of_success (db : DB) (bankId : Nat) (tid : String)
    (a c : Option String) (now : Nat) (u : BankUser) (t : TransferRec) (role : Role)
    (h : strFalsy a = false)
    (hu : findUser db (a.getD emptyString) bankId = some u) (hs : u.status = "active")
    (ht : lookupTransfer db (stripFirst tid transferMarker) = some t)
    (hc : t.status ≠ "completed") (ha : t.approval_status ≠ "auto_approved")
    (hd : (findApproval db tid (a.getD emptyString)).isSome = false)
    (hr : findRole db bankId u.role = some role)
    (hge : ¬ role.role_level < (getApprovalRequirements db bankId t.amount).required_role_level)
    (hfk : fkTransferOk db tid = true) :
    approve db bankId tid a c now =
      (approveEffects db tid (a.getD emptyString) c now t, .ok
        { transfer_id := tid
          current_approvals := t.current_approvals + 1
          required_approvals := t.required_approvals
          status := if t.required_approvals ≤ (t.current_approvals + 1 : Int) then "approved"
            else "pending_approval" }) := by
  unfold approve
  simp [h, hu, hs, ht, hc, ha, hd, hr, hge, hfk]

/-- Complete case analysis of one approval request: either some check (or
the foreign key) failed, the error response was sent and the database is
untouched, or every check passed and the database moved to
`approveEffects` with the 200 payload. -/
theorem approve_cases (db : DB) (bankId : Nat) (tid : String)
    (a c : Option String) (now : Nat) (dbr : DB) (res : ApiResult ApproveResponse)
    (hrun : approve db bankId tid a c now = (dbr, res)) :
    (∃ e, res = .err e ∧ dbr = db) ∨
    (∃ u t role, strFalsy a = false ∧
      findUser db (a.getD emptyString) bankId = some u ∧ u.status = "active" ∧
      lookupTransfer db (stripFirst tid transferMarker) = some t ∧
      t.status ≠ "completed" ∧ t.approval_status ≠ "auto_approved" ∧
      (findApproval db tid (a.getD emptyString)).isSome = false ∧
      findRole db bankId u.role = some role ∧
      ¬ role.role_level < (getApprovalRequirements db bankId t.amount).required_role_level ∧
      fkTransferOk db tid = true ∧
      dbr = approveEffects db tid (a.getD emptyString) c now t ∧
      res = .ok
        { transfer_id := tid
          current_approvals := t.current_approvals + 1
          required_approvals := t.required_approvals
          status := if t.required_approvals ≤ (t.current_approvals + 1 : Int) then "approved"
            else "pending_approval" }) := by
  by_cases hsf : strFalsy a = true
  · rw [approve_of_missing db bankId tid a c now hsf] at hrun
    injection hrun with h1 h2
    exact Or.inl ⟨.missingFields, h2.symm, h1.symm⟩
  · replace hsf : strFalsy a = false := by simpa using hsf
    cases hu : findUser db (a.getD emptyString) bankId with
    | none =>
      rw [approve_of_no_user db bankId tid a c now hsf hu] at hrun
      injection hrun with h1 h2
      exact Or.inl ⟨.invalidApprover, h2.symm, h1.symm⟩
    | some u =>
      by_cases hs : u.status = "active"
      · cases ht : lookupTransfer db (stripFirst tid transferMarker) with
        | none =>
          rw [approve_of_not_found db bankId tid a c now u hsf hu hs ht] at hrun
          injection hrun with h1 h2
          exact Or.inl ⟨.transferNotFound, h2.symm, h1.symm⟩
        | some t =>
          by_cases hc : t.status = "completed"
          · rw [approve_of_completed db bankId tid a c now u t hsf hu hs ht hc] at hrun
            injection hrun with h1 h2
            exact Or.inl ⟨.alreadyCompleted, h2.symm, h1.symm⟩
          · by_cases ha : t.approval_status = "auto_approved"
            · rw [approve_of_auto db bankId tid a c now u t hsf hu hs ht hc ha] at hrun
              injection hrun with h1 h2
              exact Or.inl ⟨.noApprovalNeeded, h2.symm, h1.symm⟩
            · by_cases hd : (findApproval db tid (a.getD emptyString)).isSome = true
              · rw [approve_of_duplicate db bankId tid a c now u t hsf hu hs ht hc ha hd] at hrun
                injection hrun with h1 h2
                exact Or.inl ⟨.duplicateApproval, h2.symm, h1.symm⟩
              · replace hd : (findApproval db tid (a.getD emptyString)).isSome = false := by
                  simpa using hd
                cases hr : findRole db bankId u.role with
                | none =>
                  rw [(approve_of_low_role db bankId tid a c now u t hsf hu hs ht hc ha hd).1 hr]
                    at hrun
                  injection hrun with h1 h2
                  exact Or.inl ⟨_, h2.symm, h1.symm⟩
                | some role =>
                  by_cases hlt :
                      role.role_level <
                        (getApprovalRequirements db bankId t.amount).required_role_level
                  · rw [(approve_of_low_role db bankId tid a c now u t hsf hu hs ht hc ha hd).2
                      role hr hlt] at hrun
                    injection hrun with h1 h2
                    exact Or.inl ⟨_, h2.symm, h1.symm⟩
                  · by_cases hfk : fkTransferOk db tid = true
                    · rw [approve_of_success db bankId tid a c now u t role hsf hu hs ht hc ha hd
                        hr hlt hfk] at hrun
                      injection hrun with h1 h2
                      exact Or.inr ⟨u, t, role, hsf, rfl, hs, rfl, hc, ha, hd, hr, hlt, hfk,
                        h1.symm, h2.symm⟩
                    · replace hfk : fkTransferOk db tid = false := by simpa using hfk
                      rw [approve_of_fk_violation db bankId tid a c now u t role hsf hu hs ht hc
                        ha hd hr hlt hfk] at hrun
                      injection hrun with h1 h2
                      exact Or.inl ⟨.internalError, h2.symm, h1.symm⟩
      · rw [approve_of_inactive db bankId tid a c now u hsf hu hs] at hrun
        injection hrun with h1 h2
        exact Or.inl ⟨.invalidApprover, h2.symm, h1.symm⟩

/-! ### Schema invariants: unique primary keys and the pending bound -/

/-- Every natural in the list is bounded by the running maximum. -/
theorem le_foldr_max (l : List Nat) : ∀ x ∈ l, x ≤ l.foldr max 0 := by
  induction l with
  | nil => intro x hx; cases hx
  | cons y ys ih =>
    intro x hx
    rcases List.mem_cons.mp hx with h | h
    · subst h; exact le_max_left _ _
    · exact le_trans (ih x h) (le_max_right _ _)

/-- `transaction_id INTEGER PRIMARY KEY`: transaction ids are unique. -/
@[reducible]
def UniqueIds (db : DB) : Prop :=
  (db.transfers.map (fun t => t.transaction_id)).Nodup

/-- The bound that actually holds for transfers still awaiting approvals:
a pending transfer either is freshly initiated (`current_approvals = 0` —
this is all that can be said when a tenant has configured a negative
`required_approvals` through the unvalidated rule endpoints) or its
counter is below the requirement.  Whenever `required_approvals ≥ 0`
both cases give `current_approvals ≤ required_approvals`. -/
@[reducible]
def PendingBound (db : DB) : Prop :=
  ∀ t ∈ db.transfers, t.status = "pending_approval" →
    t.current_approvals = 0 ∨ (t.current_approvals : Int) ≤ t.required_approvals

/-- A conditional update by an id-preserving function leaves the list of
transaction ids unchanged. -/
theorem map_id_of_updateTransfer (l : List TransferRec) (k : Nat)
    (f : TransferRec → TransferRec) (hf : ∀ t, (f t).transaction_id = t.transaction_id) :
    (l.map (fun t => if t.transaction_id == k then f t else t)).map
        (fun t => t.transaction_id) =
      l.map (fun t => t.transaction_id) := by
  rw [List.map_map]
  refine List.map_congr_left ?_
  intro t _
  simp only [Function.comp_apply]
  split
  · exact hf _
  · rfl

/-- Membership in an updated transfer list comes from membership in the
original list, conditionally rewritten. -/
theorem mem_updateTransfer (l : List TransferRec) (k : Nat)
    (f : TransferRec → TransferRec) (t' : TransferRec)
    (h : t' ∈ l.map (fun t => if t.transaction_id == k then f t else t)) :
    ∃ t ∈ l, t' = if t.transaction_id == k then f t else t := by
  rcases List.mem_map.mp h with ⟨t, ht, rfl⟩
  exact ⟨t, ht, rfl⟩

/-- Unfolding a successful text-keyed lookup. -/
theorem lookupTransfer_some (db : DB) (s : String) (t : TransferRec)
    (h : lookupTransfer db s = some t) :
    ∃ k, sqliteIntOfText s = some k ∧ findTransfer db k = some t := by
  unfold lookupTransfer at h
  cases hk : sqliteIntOfText s with
  | none => rw [hk] at h; cases h
  | some k => rw [hk] at h; exact ⟨k, rfl, h⟩

/-- A found transfer is a member of the table and carries the queried key. -/
theorem findTransfer_mem (db : DB) (k : Nat) (t : TransferRec)
    (h : findTransfer db k = some t) :
    t ∈ db.transfers ∧ t.transaction_id = k := by
  unfold findTransfer at h
  refine ⟨List.mem_of_find?_eq_some h, ?_⟩
  have := List.find?_some h
  simpa using this

/-- With unique primary keys, two table rows with the same id coincide. -/
theorem eq_of_mem_same_id (db : DB) (hu : UniqueIds db) (x y : TransferRec)
    (hx : x ∈ db.transfers) (hy : y ∈ db.transfers)
    (hid : x.transaction_id = y.transaction_id) : x = y :=
  List.inj_on_of_nodup_map hu hx hy hid

/-- Projection: the transfer table after the write phase of a successful
approval, as two conditional map passes over the original table. -/
theorem approveEffects_transfers (db : DB) (tid auid : String) (c : Option String)
    (now : Nat) (t : TransferRec) (k : Nat)
    (hk : sqliteIntOfText (stripFirst tid transferMarker) = some k) :
    (approveEffects db tid auid c now t).transfers =
      (if t.required_approvals ≤ (t.current_approvals + 1 : Int) then
        (db.transfers.map (fun x => if x.transaction_id == k then
            { x with current_approvals := t.current_approvals + 1 } else x)).map
          (fun x => if x.transaction_id == k then
            { x with status := "processing", approval_status := "approved" } else x)
      else db.transfers.map (fun x => if x.transaction_id == k then
        { x with current_approvals := t.current_approvals + 1 } else x)) := by
  simp only [approveEffects, updateTransferByText, hk, updateTransfer]
  split <;> rfl

/-- Projection: the write phase appends exactly one ledger row and never
touches the existing ones. -/
theorem approveEffects_approvals (db : DB) (tid auid : String) (c : Option String)
    (now : Nat) (t : TransferRec) :
    (approveEffects db tid auid c now t).transfer_approvals =
      db.transfer_approvals ++
        [{ transfer_id := tid, approver_user_id := auid, approved_at := now,
           comments := commentsOrDefault c }] := by
  simp only [approveEffects, updateTransferByText, updateTransfer]
  cases hk : sqliteIntOfText (stripFirst tid transferMarker) with
  | none => simp only; split <;> rfl
  | some k => simp only; split <;> rfl

/-- Mapping an id-preserving function over the table leaves the list of
transaction ids unchanged. -/
theorem map_ids_congr (l : List TransferRec) (g : TransferRec → TransferRec)
    (hg : ∀ x, (g x).transaction_id = x.transaction_id) :
    (l.map g).map (fun x => x.transaction_id) = l.map (fun x => x.transaction_id) := by
  rw [List.map_map]
  exact List.map_congr_left (fun x _ => hg x)

/-- List-level core of the invariant preservation argument for the write
phase of an approval. -/
theorem pendingBound_update_lists (l : List TransferRec) (k : Nat) (t : TransferRec)
    (hnd : (l.map (fun x => x.transaction_id)).Nodup)
    (hmem : t ∈ l) (hid : t.transaction_id = k)
    (l2 : List TransferRec)
    (hl2 : l2 = (if t.required_approvals ≤ (t.current_approvals + 1 : Int) then
        (l.map (fun x => if x.transaction_id == k then
            { x with current_approvals := t.current_approvals + 1 } else x)).map
          (fun x => if x.transaction_id == k then
            { x with status := "processing", approval_status := "approved" } else x)
      else l.map (fun x => if x.transaction_id == k then
        { x with current_approvals := t.current_approvals + 1 } else x)))
    (hp : ∀ x ∈ l, x.status = "pending_approval" →
      x.current_approvals = 0 ∨ (x.current_approvals : Int) ≤ x.required_approvals) :
    (l2.map (fun x => x.transaction_id)).Nodup ∧
      (∀ x ∈ l2, x.status = "pending_approval" →
        x.current_approvals = 0 ∨ (x.current_approvals : Int) ≤ x.required_approvals) := by
  have hg1 : ∀ x : TransferRec,
      ((if x.transaction_id == k then
        { x with current_approvals := t.current_approvals + 1 } else x) :
          TransferRec).transaction_id = x.transaction_id := by
    intro x
    split <;> rfl
  have hg2 : ∀ x : TransferRec,
      ((if x.transaction_id == k then
        { x with status := "processing", approval_status := "approved" } else x) :
          TransferRec).transaction_id = x.transaction_id := by
    intro x
    split <;> rfl
  by_cases hth : t.required_approvals ≤ (t.current_approvals + 1 : Int)
  · rw [if_pos hth] at hl2
    subst hl2
    constructor
    · rw [map_ids_congr _ _ hg2, map_ids_congr _ _ hg1]
      exact hnd
    · intro x hx hpend
      obtain ⟨y, hy, rfl⟩ := List.mem_map.mp hx
      obtain ⟨z, hz, rfl⟩ := List.mem_map.mp hy
      by_cases hm : (z.transaction_id == k) = true
      · rw [if_pos hm] at hpend ⊢
        have : (({ z with current_approvals := t.current_approvals + 1 } :
            TransferRec).transaction_id == k) = true := by simpa using hm
        rw [if_pos this] at hpend
        simp at hpend
      · rw [if_neg hm] at hpend ⊢
        rw [if_neg hm] at hpend ⊢
        exact hp z hz hpend
  · rw [if_neg hth] at hl2
    subst hl2
    constructor
    · rw [map_ids_congr _ _ hg1]
      exact hnd
    · intro x hx hpend
      obtain ⟨z, hz, rfl⟩ := List.mem_map.mp hx
      by_cases hm : (z.transaction_id == k) = true
      · rw [if_pos hm] at hpend ⊢
        have hzt : z = t :=
          List.inj_on_of_nodup_map hnd hz hmem (by rw [hid]; simpa using hm)
        subst hzt
        refine Or.inr ?_
        simp only
        omega
      · rw [if_neg hm] at hpend ⊢
        exact hp z hz hpend

/-- The write phase of a successful approval preserves unique ids and the
pending bound. -/
theorem schemaInv_approveEffects (db : DB) (tid auid : String) (c : Option String)
    (now : Nat) (t : TransferRec)
    (ht : lookupTransfer db (stripFirst tid transferMarker) = some t)
    (hu : UniqueIds db) (hp : PendingBound db) :
    UniqueIds (approveEffects db tid auid c now t) ∧
      PendingBound (approveEffects db tid auid c now t) := by
  obtain ⟨k, hk, hft⟩ := lookupTransfer_some db _ t ht
  obtain ⟨htmem, htid⟩ := findTransfer_mem db k t hft
  have htr := approveEffects_transfers db tid auid c now t k hk
  have := pendingBound_update_lists db.transfers k t hu htmem htid
    (approveEffects db tid auid c now t).transfers htr hp
  exact ⟨this.1, this.2⟩

/-- Deferred settlement preserves unique ids and the pending bound (the
settled row is no longer pending). -/
theorem schemaInv_settle (db : DB) (k : Nat)
    (hu : UniqueIds db) (hp : PendingBound db) :
    UniqueIds (settle db k) ∧ PendingBound (settle db k) := by
  constructor
  · unfold UniqueIds at hu ⊢
    unfold settle updateTransfer
    simp only
    rw [map_ids_congr _ _ (fun x => by split <;> rfl)]
    exact hu
  · intro x hx hpend
    unfold settle updateTransfer at hx
    simp only at hx
    obtain ⟨z, hz, rfl⟩ := List.mem_map.mp hx
    by_cases hm : (z.transaction_id == k) = true
    · rw [if_pos hm] at hpend ⊢
      simp at hpend
    · rw [if_neg hm] at hpend ⊢
      exact hp z hz hpend

/-! ### Characterization lemmas for the initiation route -/

/-- Missing body fields: 400, no state change. -/
theorem initiate_of_missing (db : DB) (bankId : Nat) (req : InitiateRequest) (now : Nat)
    (h : initiateFieldsMissing req = true) :
    initiate db bankId req now = (db, .err .missingFields) := by
  unfold initiate
  simp [h]

/-- Non-positive amount: 400, no state change. -/
theorem initiate_of_nonpos (db : DB) (bankId : Nat) (req : InitiateRequest) (now : Nat)
    (h : initiateFieldsMissing req = false) (ha : req.amount.getD 0 ≤ 0) :
    initiate db bankId req now = (db, .err .nonPositiveAmount) := by
  unfold initiate
  simp [h, ha]

/-- Unknown initiator: 403, no state change. -/
theorem initiate_of_no_user (db : DB) (bankId : Nat) (req : InitiateRequest) (now : Nat)
    (h : initiateFieldsMissing req = false) (ha : ¬ req.amount.getD 0 ≤ 0)
    (hu : findUser db (req.initiated_by.getD emptyString) bankId = none) :
    initiate db bankId req now = (db, .err .invalidUser) := by
  unfold initiate
  simp [h, ha, hu]

/-- Inactive initiator: 403, no state change. -/
theorem initiate_of_inactive (db : DB) (bankId : Nat) (req : InitiateRequest) (now : Nat)
    (u : BankUser)
    (h : initiateFieldsMissing req = false) (ha : ¬ req.amount.getD 0 ≤ 0)
    (hu : findUser db (req.initiated_by.getD emptyString) bankId = some u)
    (hs : u.status ≠ "active") :
    initiate db bankId req now = (db, .err .invalidUser) := by
  unfold initiate
  simp [h, ha, hu, hs]

/-- Missing stablecoin logic row: 500, no state change. -/
theorem initiate_of_no_logic (db : DB) (bankId : Nat) (req : InitiateRequest) (now : Nat)
    (u : BankUser)
    (h : initiateFieldsMissing req = false) (ha : ¬ req.amount.getD 0 ≤ 0)
    (hu : findUser db (req.initiated_by.getD emptyString) bankId = some u)
    (hs : u.status = "active") (hl : db.logic_configured = false) :
    initiate db bankId req now = (db, .err .logicNotConfigured) := by
  unfold initiate
  simp [h, ha, hu, hs, hl]

/-- Successful initiation: exactly the `mkInitiated` row is appended and
echoed. -/
theorem initiate_of_success (db : DB) (bankId : Nat) (req : InitiateRequest) (now : Nat)
    (u : BankUser)
    (h : initiateFieldsMissing req = false) (ha : ¬ req.amount.getD 0 ≤ 0)
    (hu : findUser db (req.initiated_by.getD emptyString) bankId = some u)
    (hs : u.status = "active") (hl : db.logic_configured = true) :
    initiate db bankId req now =
      ({ db with transfers := db.transfers ++ [mkInitiated db bankId req now] },
        .ok (mkInitiated db bankId req now)) := by
  unfold initiate
  simp [h, ha, hu, hs, hl]

/-- Complete case analysis of one initiation request. -/
theorem initiate_cases (db : DB) (bankId : Nat) (req : InitiateRequest) (now : Nat)
    (dbr : DB) (res : ApiResult TransferRec)
    (hrun : initiate db bankId req now = (dbr, res)) :
    (∃ e, res = .err e ∧ dbr = db) ∨
    (res = .ok (mkInitiated db bankId req now) ∧
      dbr = { db with transfers := db.transfers ++ [mkInitiated db bankId req now] }) := by
  by_cases h : initiateFieldsMissing req = true
  · rw [initiate_of_missing db bankId req now h] at hrun
    injection hrun with h1 h2
    exact Or.inl ⟨.missingFields, h2.symm, h1.symm⟩
  · replace h : initiateFieldsMissing req = false := by simpa using h
    by_cases ha : req.amount.getD 0 ≤ 0
    · rw [initiate_of_nonpos db bankId req now h ha] at hrun
      injection hrun with h1 h2
      exact Or.inl ⟨.nonPositiveAmount, h2.symm, h1.symm⟩
    · cases hu : findUser db (req.initiated_by.getD emptyString) bankId with
      | none =>
        rw [initiate_of_no_user db bankId req now h ha hu] at hrun
        injection hrun with h1 h2
        exact Or.inl ⟨.invalidUser, h2.symm, h1.symm⟩
      | some u =>
        by_cases hs : u.status = "active"
        · by_cases hl : db.logic_configured = true
          · rw [initiate_of_success db bankId req now u h ha hu hs hl] at hrun
            injection hrun with h1 h2
            exact Or.inr ⟨h2.symm, h1.symm⟩
          · replace hl : db.logic_configured = false := by simpa using hl
            rw [initiate_of_no_logic db bankId req now u h ha hu hs hl] at hrun
            injection hrun with h1 h2
            exact Or.inl ⟨.logicNotConfigured, h2.symm, h1.symm⟩
        · rw [initiate_of_inactive db bankId req now u h ha hu hs] at hrun
          injection hrun with h1 h2
          exact Or.inl ⟨.invalidUser, h2.symm, h1.symm⟩

/-- Transfer initiation preserves unique ids and the pending bound: any
fresh row gets a fresh id and starts with `current_approvals = 0`. -/
theorem schemaInv_initiate (db : DB) (bankId : Nat) (req : InitiateRequest) (now : Nat)
    (hu : UniqueIds db) (hp : PendingBound db) :
    UniqueIds (initiate db bankId req now).1 ∧ PendingBound (initiate db bankId req now).1 := by
  rcases initiate_cases db bankId req now (initiate db bankId req now).1
      (initiate db bankId req now).2 rfl with ⟨e, _, hdb⟩ | ⟨_, hdb⟩
  · rw [hdb]
    exact ⟨hu, hp⟩
  · rw [hdb]
    constructor
    · unfold UniqueIds at hu ⊢
      simp only [List.map_append, List.map_cons, List.map_nil]
      rw [List.nodup_append]
      refine ⟨hu, List.nodup_singleton _, ?_⟩
      intro x hxmem hxmem2
      simp only [List.mem_singleton] at hxmem2
      subst hxmem2
      have hle := le_foldr_max (db.transfers.map (fun t => t.transaction_id)) _ hxmem
      have hmk : (mkInitiated db bankId req now).transaction_id = nextTransactionId db := rfl
      rw [hmk] at hle
      unfold nextTransactionId at hle
      omega
    · intro x hx hpend
      simp only [List.mem_append, List.mem_singleton] at hx
      rcases hx with hx | hx
      · exact hp x hx hpend
      · subst hx
        exact Or.inl rfl

/-- An approval request preserves unique ids and the pending bound. -/
theorem schemaInv_approve (db : DB) (bankId : Nat) (tid : String)
    (a c : Option String) (now : Nat) (hu : UniqueIds db) (hp : PendingBound db) :
    UniqueIds (approve db bankId tid a c now).1 ∧
      PendingBound (approve db bankId tid a c now).1 := by
  rcases approve_cases db bankId tid a c now (approve db bankId tid a c now).1
      (approve db bankId tid a c now).2 rfl with
    ⟨e, _, hdb⟩ | ⟨u, t, role, _, _, _, ht, _, _, _, _, _, _, hdbr, _⟩
  · rw [hdb]
    exact ⟨hu, hp⟩
  · rw [hdbr]
    exact schemaInv_approveEffects db tid (a.getD emptyString) c now t ht hu hp

/-- Every single workflow step preserves unique ids and the pending bound. -/
theorem schemaInv_step (db db1 : DB) (hstep : Step db db1)
    (hu : UniqueIds db) (hp : PendingBound db) :
    UniqueIds db1 ∧ PendingBound db1 := by
  cases hstep with
  | initiate bankId req now => exact schemaInv_initiate db bankId req now hu hp
  | approve bankId tid a c now => exact schemaInv_approve db bankId tid a c now hu hp
  | settle k => exact schemaInv_settle db k hu hp

/-- Unique ids and the pending bound hold in every reachable state. -/
theorem schemaInv_reachable (db db1 : DB) (hreach : Reachable db db1)
    (hu : UniqueIds db) (hp : PendingBound db) :
    UniqueIds db1 ∧ PendingBound db1 := by
  induction hreach with
  | refl => exact ⟨hu, hp⟩
  | tail _ _ _ hstep ih => exact schemaInv_step _ _ hstep ih.1 ih.2

/-- `selectRule` returns a member of maximal `min_amount`, and `none` only
on the empty list. -/
theorem selectRule_spec (l : List ApprovalRule) :
    (l = [] ∧ selectRule l = none) ∨
    (∃ r, r ∈ l ∧ selectRule l = some r ∧ ∀ x ∈ l, x.min_amount ≤ r.min_amount) := by
  induction l with
  | nil => exact Or.inl ⟨rfl, rfl⟩
  | cons a t ih =>
    right
    rcases ih with ⟨ht, hsel⟩ | ⟨r, hr, hsel, hmax⟩
    · subst ht
      refine ⟨a, List.mem_singleton_self a, ?_, ?_⟩
      · unfold selectRule
        rw [hsel]
      · intro x hx
        rcases List.mem_singleton.mp hx with rfl
        exact le_refl _
    · by_cases hlt : r.min_amount < a.min_amount
      · refine ⟨a, List.mem_cons_self a t, ?_, ?_⟩
        · unfold selectRule
          rw [hsel]
          simp only
          rw [if_pos hlt]
        · intro x hx
          rcases List.mem_cons.mp hx with rfl | hx
          · exact le_refl _
          · exact le_trans (hmax x hx) (le_of_lt hlt)
      · refine ⟨r, List.mem_cons_of_mem a hr, ?_, ?_⟩
        · unfold selectRule
          rw [hsel]
          simp only
          rw [if_neg hlt]
        · intro x hx
          rcases List.mem_cons.mp hx with rfl | hx
          · exact le_of_not_lt hlt
          · exact hmax x hx

/-- A text lookup whose key converts reduces to the integer lookup. -/
theorem lookupTransfer_eq_findTransfer (db : DB) (s : String) (k : Nat)
    (hk : sqliteIntOfText s = some k) :
    lookupTransfer db s = findTransfer db k := by
  unfold lookupTransfer
  rw [hk]

/-- `find?` by key commutes with mapping an id-preserving function. -/
theorem find?_map_update (l : List TransferRec) (k : Nat) (g : TransferRec → TransferRec)
    (hg : ∀ x, (g x).transaction_id = x.transaction_id) :
    (l.map g).find? (fun x => x.transaction_id == k) =
      (l.find? (fun x => x.transaction_id == k)).map g := by
  induction l with
  | nil => rfl
  | cons y ys ih =>
    simp only [List.map_cons, List.find?]
    rw [hg y]
    cases hm : (y.transaction_id == k) with
    | true => simp
    | false => simpa using ih

/-- Looking up the approved transfer after the write phase: the row is the
original row with the counter bumped, and with the status pair rewritten
exactly when the threshold was reached. -/
theorem lookupTransfer_after_effects (db : DB) (tid auid : String) (c : Option String)
    (now : Nat) (t : TransferRec)
    (ht : lookupTransfer db (stripFirst tid transferMarker) = some t) :
    lookupTransfer (approveEffects db tid auid c now t) (stripFirst tid transferMarker) =
      some (if t.required_approvals ≤ (t.current_approvals + 1 : Int) then
        { t with current_approvals := t.current_approvals + 1,
                 status := "processing", approval_status := "approved" }
      else { t with current_approvals := t.current_approvals + 1 }) := by
  obtain ⟨k, hk, hft⟩ := lookupTransfer_some db _ t ht
  obtain ⟨htmem, htid⟩ := findTransfer_mem db k t hft
  have htb : (t.transaction_id == k) = true := by
    rw [htid]
    exact beq_self_eq_true k
  rw [lookupTransfer_eq_findTransfer _ _ k hk]
  unfold findTransfer
  rw [approveEffects_transfers db tid auid c now t k hk]
  unfold findTransfer at hft
  by_cases hth : t.required_approvals ≤ (t.current_approvals + 1 : Int)
  · rw [if_pos hth, if_pos hth]
    rw [find?_map_update _ k _ (fun x => by split <;> rfl),
      find?_map_update _ k _ (fun x => by split <;> rfl), hft]
    have h2 : ((({ t with current_approvals := t.current_approvals + 1 } :
        TransferRec).transaction_id == k) = true) := htb
    simp only [Option.map, Option.bind]
    rw [if_pos htb, if_pos h2]
  · rw [if_neg hth, if_neg hth]
    rw [find?_map_update _ k _ (fun x => by split <;> rfl), hft]
    simp only [Option.map, Option.bind]
    rw [if_pos htb]

/-- The claim C3 states: rule resolution is a total deterministic function
selecting, among the rules of the tenant whose range covers the amount,
one with the largest `min_amount`, and falling back to the synthetic
auto-approve rule with zero required approvals and role level 1 (the
lowest level provisioned for any bank) when nothing matches. -/
theorem C3_rule_resolution_selects_max_floor (db : DB) (bankId : Nat) (amount : ℚ) :
    (db.approval_rules.filter (ruleMatches bankId amount) = [] ∧
      getApprovalRequirements db bankId amount =
        { auto_approve := true, required_approvals := 0, required_role_level := 1 }) ∨
    (∃ r, r ∈ db.approval_rules.filter (ruleMatches bankId amount) ∧
      getApprovalRequirements db bankId amount = r.toResolved ∧
      ∀ x ∈ db.approval_rules.filter (ruleMatches bankId amount),
        x.min_amount ≤ r.min_amount) := by
  rcases selectRule_spec (db.approval_rules.filter (ruleMatches bankId amount)) with
    ⟨he, hsel⟩ | ⟨r, hr, hsel, hmax⟩
  · left
    refine ⟨he, ?_⟩
    unfold getApprovalRequirements
    rw [hsel]
    rfl
  · right
    refine ⟨r, hr, ?_, hmax⟩
    unfold getApprovalRequirements
    rw [hsel]

/-! ### Concrete states used by the scenario theorems -/

/-- User id string for the first administrator. -/
def strU1 : String :=
  "u1"

/-- User id wrapped as the optional request field. -/
def optU1 : Option String :=
  some strU1

/-- Second administrator id. -/
def strU2 : String :=
  "u2"

/-- Second administrator id as request field. -/
def optU2 : Option String :=
  some strU2

/-- Third administrator id. -/
def strU3 : String :=
  "u3"

/-- Third administrator id as request field. -/
def optU3 : Option String :=
  some strU3

/-- An id no user carries. -/
def strU9 : String :=
  "nobody"

/-- Unknown id as request field. -/
def optU9 : Option String :=
  some strU9

/-- Wallet id strings for request bodies. -/
def strW1 : String :=
  "wallet_1000"

/-- Destination wallet id. -/
def strW2 : String :=
  "wallet_1001"

/-- Currency string. -/
def strUSDC : String :=
  "USDC"

/-- The numeric transfer id text `1`. -/
def strTid1 : String :=
  "1"

/-- The alias `01` of the same transfer id. -/
def strTid01 : String :=
  "01"

/-- The documented transfer id format `transfer_1`. -/
def strTidT1 : String :=
  "transfer_1"

/-- Default Admin role of bank 1 (level 10, from the onboarding set). -/
def roleAdminR : Role :=
  { bank_id := 1, role_name := "Admin", role_level := 10 }

/-- First administrator of bank 1. -/
def userU1 : BankUser :=
  { user_id := "u1", bank_id := 1, role := "Admin", status := "active" }

/-- Second administrator of bank 1. -/
def userU2 : BankUser :=
  { user_id := "u2", bank_id := 1, role := "Admin", status := "active" }

/-- Third administrator of bank 1. -/
def userU3 : BankUser :=
  { user_id := "u3", bank_id := 1, role := "Admin", status := "active" }

/-- The onboarding rule `Very Large Transfers` (250000 and up, two
approvals, role level 4, not auto approved). -/
def ruleTwoApprovals : ApprovalRule :=
  { bank_id := 1, min_amount := 250000, max_amount := none, required_role_level := 4,
    required_approvals := 2, auto_approve := false }

/-- A one-approval variant of the same range. -/
def ruleOneApproval : ApprovalRule :=
  { bank_id := 1, min_amount := 250000, max_amount := none, required_role_level := 4,
    required_approvals := 1, auto_approve := false }

/-- A custom rule a bank can create through the approval-rules endpoint:
auto-approve with a nonzero `required_approvals`. -/
def ruleAutoFive : ApprovalRule :=
  { bank_id := 1, min_amount := 0, max_amount := none, required_role_level := 1,
    required_approvals := 5, auto_approve := true }

/-- A custom non-auto rule requiring zero approvals. -/
def ruleZeroApprovals : ApprovalRule :=
  { bank_id := 1, min_amount := 10, max_amount := none, required_role_level := 1,
    required_approvals := 0, auto_approve := false }

/-- An auto-approve rule with zero approvals (the shape of the onboarding
rule `Small Transfers`, with an unbounded range). -/
def ruleAutoZero : ApprovalRule :=
  { bank_id := 1, min_amount := 0, max_amount := none, required_role_level := 1,
    required_approvals := 0, auto_approve := true }

/-- A large transfer request (amount 300000). -/
def reqC1 : InitiateRequest :=
  { fromWalletId := some strW1, toWalletId := some strW2, amount := some 300000,
    currency := some strUSDC, initiated_by := optU1 }

/-- A small transfer request (amount 100). -/
def reqSmall : InitiateRequest :=
  { fromWalletId := some strW1, toWalletId := some strW2, amount := some 100,
    currency := some strUSDC, initiated_by := optU1 }

/-- Bank 1 with three active administrators and the two-approval rule. -/
def dbC1 : DB :=
  { bank_users := [userU1, userU2, userU3], roles := [roleAdminR],
    approval_rules := [ruleTwoApprovals], transfers := [], transfer_approvals := [],
    logic_configured := true }

/-- After initiating the large transfer (id 1, pending, two approvals
required). -/
def dbC1a : DB :=
  (initiate dbC1 1 reqC1 0).1

/-- The created transfer row. -/
def tC1 : TransferRec :=
  mkInitiated dbC1 1 reqC1 0

/-- After the first approval (u1): one of two approvals. -/
def dbC1b : DB :=
  (approve dbC1a 1 strTid1 optU1 none 1).1

/-- After the second approval (u2): threshold reached, processing. -/
def dbC1c : DB :=
  (approve dbC1b 1 strTid1 optU2 none 2).1

/-- After a third approval (u3), accepted although the transfer is already
fully approved and processing. -/
def dbC1d : DB :=
  (approve dbC1c 1 strTid1 optU3 none 3).1

/-- A rule a tenant can reach through the unvalidated approval-rule
endpoints (create checks only for a defined value, update COALESCEs any
value): `required_approvals = -1` on a non-auto rule. -/
def ruleNegOne : ApprovalRule :=
  { bank_id := 1, min_amount := 250000, max_amount := none, required_role_level := 4,
    required_approvals := -1, auto_approve := false }

/-- Bank 1 carrying the negative-requirement rule. -/
def dbC1n : DB :=
  { bank_users := [userU1, userU2, userU3], roles := [roleAdminR],
    approval_rules := [ruleNegOne], transfers := [], transfer_approvals := [],
    logic_configured := true }

/-- After initiating the large transfer under the negative-requirement
rule: a stable pending transfer with `current_approvals = 0` above
`required_approvals = -1` (`-1 || 0` keeps `-1`, as nonzero numbers are
truthy). -/
def dbC1n1 : DB :=
  (initiate dbC1n 1 reqC1 0).1

/-- Claim C1 as stated is false, in two independent ways, starting from
empty bank databases and using only the routes of the source.  First,
three approvals by three distinct eligible administrators on a transfer
requiring two approvals are all accepted, ending with
`current_approvals = 3 > 2 = required_approvals`: the route only rejects
approvals on `completed` or `auto_approved` transfers, so a transfer in
`processing` (threshold already reached, settlement pending) keeps
accepting approvals.  Second, a tenant can store `required_approvals =
-1` on a rule (no endpoint validates the sign), and initiation then
creates a pending transfer with `current_approvals = 0` already above
`required_approvals = -1`. -/
theorem C1_counterexample_exceeds_required :
    Reachable dbC1 dbC1d ∧
    dbC1d.transfers.map (fun t => (t.current_approvals, t.required_approvals)) = [(3, 2)] ∧
    (∃ t ∈ dbC1d.transfers, t.required_approvals < (t.current_approvals : Int)) ∧
    Reachable dbC1n dbC1n1 ∧
    dbC1n1.transfers.map (fun t => (t.current_approvals, t.required_approvals, t.status)) =
      [(0, -1, "pending_approval")] ∧
    (∃ t ∈ dbC1n1.transfers, t.required_approvals < (t.current_approvals : Int) ∧
      t.status = "pending_approval") := by
  refine ⟨?_, by decide, by decide, ?_, by decide, by decide⟩
  · exact Reachable.tail _ _ _
      (Reachable.tail _ _ _
        (Reachable.tail _ _ _
          (Reachable.tail _ _ _ (Reachable.refl dbC1) (Step.initiate dbC1 1 reqC1 0))
          (Step.approve dbC1a 1 strTid1 optU1 none 1))
        (Step.approve dbC1b 1 strTid1 optU2 none 2))
      (Step.approve dbC1c 1 strTid1 optU3 none 3)
  · exact Reachable.tail _ _ _ (Reachable.refl dbC1n) (Step.initiate dbC1n 1 reqC1 0)

/-- Claim C1 amended: each successful `approve()` increases the target
transfer counter `current_approvals` by exactly one and no approval ever lowers
any counter; a failed `approve()` leaves the database untouched; and in every
reachable state a transfer whose `status` is still `pending_approval` has
`current_approvals = 0` or `current_approvals ≤ required_approvals`, so
the claimed bound `current_approvals ≤ required_approvals` holds while
pending whenever `required_approvals` is non-negative.  The unconditional
bound of the claim fails in two ways (see the counterexample): once the
threshold is crossed (`status = processing`, settlement pending) further
approvals are still accepted and push the counter above
`required_approvals`; and the rule endpoints accept a negative
`required_approvals`, making a pending transfer with
`current_approvals = 0 > required_approvals = -1` reachable. -/
theorem C1_monotone_and_bounded_while_pending (db dbR : DB) (bankId : Nat) (tid : String)
    (a c : Option String) (now : Nat)
    (hu : UniqueIds db) (hp : PendingBound db) (hreach : Reachable db dbR) :
    (UniqueIds dbR ∧ PendingBound dbR) ∧
    (∀ t ∈ dbR.transfers, t.status = "pending_approval" → 0 ≤ t.required_approvals →
      (t.current_approvals : Int) ≤ t.required_approvals) ∧
    (∀ e, (approve db bankId tid a c now).2 = .err e → (approve db bankId tid a c now).1 = db) ∧
    (∀ resp, (approve db bankId tid a c now).2 = .ok resp →
      ∃ t, lookupTransfer db (stripFirst tid transferMarker) = some t ∧
        resp.current_approvals = t.current_approvals + 1 ∧
        ∃ t2, lookupTransfer (approve db bankId tid a c now).1 (stripFirst tid transferMarker)
            = some t2 ∧ t2.current_approvals = t.current_approvals + 1) ∧
    (∀ x2 ∈ (approve db bankId tid a c now).1.transfers, ∃ x ∈ db.transfers,
      x.transaction_id = x2.transaction_id ∧ x.current_approvals ≤ x2.current_approvals) := by
  refine ⟨schemaInv_reachable db dbR hreach hu hp, ?_, ?_, ?_, ?_⟩
  · intro t htm hts hge
    rcases (schemaInv_reachable db dbR hreach hu hp).2 t htm hts with h0 | hle
    · omega
    · exact hle
  · intro e he
    rcases approve_cases db bankId tid a c now (approve db bankId tid a c now).1
        (approve db bankId tid a c now).2 rfl with ⟨e2, he2, hdb⟩ | h
    · exact hdb
    · obtain ⟨u, t, role, _, _, _, _, _, _, _, _, _, _, _, hres⟩ := h
      exact absurd (he.symm.trans hres) (by intro hcon; cases hcon)
  · intro resp hok
    rcases approve_cases db bankId tid a c now (approve db bankId tid a c now).1
        (approve db bankId tid a c now).2 rfl with ⟨e2, he2, hdb⟩ | h
    · exact absurd (hok.symm.trans he2) (by intro hcon; cases hcon)
    · obtain ⟨u, t, role, _, _, _, ht, _, _, _, _, _, _, hdbr, hres⟩ := h
      have hinj := hok.symm.trans hres
      injection hinj with hresp
      refine ⟨t, ht, by rw [hresp], ?_⟩
      rw [hdbr, lookupTransfer_after_effects db tid (a.getD emptyString) c now t ht]
      refine ⟨_, rfl, ?_⟩
      split
      · rfl
      · rfl
  · intro x2 hx2
    rcases approve_cases db bankId tid a c now (approve db bankId tid a c now).1
        (approve db bankId tid a c now).2 rfl with ⟨e2, he2, hdb⟩ | h
    · rw [hdb] at hx2
      exact ⟨x2, hx2, rfl, le_refl _⟩
    · obtain ⟨u, t, role, _, _, _, ht, _, _, _, _, _, _, hdbr, hres⟩ := h
      obtain ⟨k, hk, hft⟩ := lookupTransfer_some db _ t ht
      obtain ⟨htmem, htid⟩ := findTransfer_mem db k t hft
      rw [hdbr] at hx2
      rw [approveEffects_transfers db tid (a.getD emptyString) c now t k hk] at hx2
      by_cases hth : t.required_approvals ≤ (t.current_approvals + 1 : Int)
      · rw [if_pos hth] at hx2
        obtain ⟨y, hy, hye⟩ := mem_updateTransfer _ k _ x2 hx2
        obtain ⟨z, hz, hze⟩ := mem_updateTransfer _ k _ y hy
        by_cases hm2 : (z.transaction_id == k) = true
        · rw [if_pos hm2] at hze
          have hzt : z = t := eq_of_mem_same_id db hu z t hz htmem
            (by rw [htid]; simpa using hm2)
          rw [← hzt] at hze
          subst hze
          by_cases hm1 : ((({ z with current_approvals := z.current_approvals + 1 } :
              TransferRec).transaction_id == k) = true)
          · rw [if_pos hm1] at hye
            subst hye
            exact ⟨z, hz, rfl, Nat.le_succ _⟩
          · rw [if_neg hm1] at hye
            subst hye
            exact ⟨z, hz, rfl, Nat.le_succ _⟩
        · rw [if_neg hm2] at hze
          subst hze
          by_cases hm1 : ((y.transaction_id == k) = true)
          · exact absurd hm1 hm2
          · rw [if_neg hm1] at hye
            subst hye
            exact ⟨x2, hz, rfl, le_refl _⟩
      · rw [if_neg hth] at hx2
        obtain ⟨z, hz, hze⟩ := mem_updateTransfer _ k _ x2 hx2
        by_cases hm2 : (z.transaction_id == k) = true
        · rw [if_pos hm2] at hze
          have hzt : z = t := eq_of_mem_same_id db hu z t hz htmem
            (by rw [htid]; simpa using hm2)
          rw [← hzt] at hze
          subst hze
          exact ⟨z, hz, rfl, Nat.le_succ _⟩
        · rw [if_neg hm2] at hze
          subst hze
          exact ⟨x2, hz, rfl, le_refl _⟩

/-- Witness for the amended C1 theorem at the concrete bank database. -/
theorem C1_monotone_witness :
    UniqueIds dbC1a ∧ PendingBound dbC1a :=
  (C1_monotone_and_bounded_while_pending dbC1a dbC1a 1 strTid1 optU1 none 1
    (by decide) (by decide) (Reachable.refl dbC1a)).1

/-- Bank 1 with a one-approval rule for large transfers. -/
def dbC2 : DB :=
  { bank_users := [userU1, userU2, userU3], roles := [roleAdminR],
    approval_rules := [ruleOneApproval], transfers := [], transfer_approvals := [],
    logic_configured := true }

/-- After initiating the large transfer (id 1, pending, one approval
required, so the next approval crosses the threshold). -/
def dbC2a : DB :=
  (initiate dbC2 1 reqC1 0).1

/-- The created transfer row of `dbC2a`. -/
def tC2 : TransferRec :=
  mkInitiated dbC2 1 reqC1 0

/-- Claim C2 evaluated at the failing input for the code bug: the approval
request uses the documented id format `transfer_1`, every one of the six
preconditions passes and the threshold would be crossed
(`current_approvals + 1 ≥ required_approvals`), yet the route answers 500
and neither `status` nor `approval_status` changes, because the ledger
INSERT stores the raw text `transfer_1` in a column whose foreign key
references the INTEGER `transaction_id` (with `foreign_keys = ON` the
insert throws).  With the plain numeric id text the same request succeeds
and performs the transition exactly as the claim states. -/
theorem C2_fk_violation_blocks_transition :
    findUser dbC2a strU1 1 = some userU1 ∧ userU1.status = "active" ∧
    lookupTransfer dbC2a (stripFirst strTidT1 transferMarker) = some tC2 ∧
    tC2.status = "pending_approval" ∧ tC2.approval_status = "pending_approval" ∧
    findApproval dbC2a strTidT1 strU1 = none ∧
    findRole dbC2a 1 userU1.role = some roleAdminR ∧
    ¬ roleAdminR.role_level < (getApprovalRequirements dbC2a 1 tC2.amount).required_role_level ∧
    tC2.required_approvals ≤ (tC2.current_approvals + 1 : Int) ∧
    fkTransferOk dbC2a strTidT1 = false ∧
    approve dbC2a 1 strTidT1 optU1 none 1 = (dbC2a, .err .internalError) ∧
    (approve dbC2a 1 strTidT1 optU1 none 1).1.transfers.map
      (fun t => (t.status, t.approval_status)) = [("pending_approval", "pending_approval")] ∧
    approve dbC2a 1 strTid1 optU1 none 1 = ((approve dbC2a 1 strTid1 optU1 none 1).1, .ok
      { transfer_id := strTid1, current_approvals := 1, required_approvals := 1,
        status := "approved" }) ∧
    (approve dbC2a 1 strTid1 optU1 none 1).1.transfers.map
      (fun t => (t.status, t.approval_status)) = [("processing", "approved")] := by
  decide

/-- Claim C4 amended: a successfully initiated transfer always starts with
`current_approvals = 0` and `required_approvals` equal to the resolved
rule value; on the auto-approve path it is created as
`auto_approved`/`processing` with a 30-second deadline, otherwise as
`pending_approval`/`pending_approval` with a 24-hour deadline.
`required_approvals` is not forced to zero on the auto path: it is zero
for the synthetic fallback and the default-provisioned auto rule, but a
custom auto rule with nonzero `required_approvals` is stored as is (see
the counterexample). -/
theorem C4_initiated_transfer_fields (db : DB) (bankId : Nat) (req : InitiateRequest)
    (now : Nat) (t : TransferRec)
    (hok : (initiate db bankId req now).2 = .ok t) :
    t.current_approvals = 0 ∧
    t.required_approvals =
      (getApprovalRequirements db bankId (req.amount.getD 0)).required_approvals ∧
    ((getApprovalRequirements db bankId (req.amount.getD 0)).auto_approve = true →
      t.approval_status = "auto_approved" ∧ t.status = "processing" ∧
      t.approval_deadline = now + 30000) ∧
    ((getApprovalRequirements db bankId (req.amount.getD 0)).auto_approve = false →
      t.approval_status = "pending_approval" ∧ t.status = "pending_approval" ∧
      t.approval_deadline = now + 24 * 60 * 60 * 1000) ∧
    (initiate db bankId req now).1 = { db with transfers := db.transfers ++ [t] } := by
  rcases initiate_cases db bankId req now (initiate db bankId req now).1
      (initiate db bankId req now).2 rfl with ⟨e, he, _⟩ | ⟨hres, hdb⟩
  · exact absurd (hok.symm.trans he) (by intro hcon; cases hcon)
  · have hteq : t = mkInitiated db bankId req now := by
      have h2 := hok.symm.trans hres
      injection h2
    subst hteq
    refine ⟨rfl, rfl, ?_, ?_, ?_⟩
    · intro hauto
      simp [mkInitiated, hauto]
    · intro hauto
      simp [mkInitiated, hauto]
    · exact hdb

/-- Witness for the amended C4 theorem at the concrete bank database. -/
theorem C4_initiated_transfer_fields_witness :
    (initiate dbC1 1 reqC1 0).2 = .ok tC1 ∧ tC1.current_approvals = 0 :=
  ⟨by decide, (C4_initiated_transfer_fields dbC1 1 reqC1 0 tC1 (by decide)).1⟩

/-- Bank 1 carrying only the custom auto-approve rule with five required
approvals (such a rule is accepted by the approval-rule creation
endpoint, which never checks `auto_approve` against `required_approvals`). -/
def dbC4 : DB :=
  { bank_users := [userU1], roles := [roleAdminR], approval_rules := [ruleAutoFive],
    transfers := [], transfer_approvals := [], logic_configured := true }

/-- The transfer created from `dbC4` by a small request. -/
def tC4 : TransferRec :=
  mkInitiated dbC4 1 reqSmall 0

/-- Claim C4 as stated is false at this input: the resolved rule is
auto-approve, the record is created `auto_approved`/`processing`, but its
`required_approvals` is 5, not 0 — the route stores
`approvalRule.required_approvals || 0` regardless of `auto_approve`. -/
theorem C4_counterexample_auto_nonzero_required :
    (getApprovalRequirements dbC4 1 (reqSmall.amount.getD 0)).auto_approve = true ∧
    (initiate dbC4 1 reqSmall 0).2 = .ok tC4 ∧
    tC4.approval_status = "auto_approved" ∧ tC4.status = "processing" ∧
    tC4.required_approvals = 5 ∧ tC4.required_approvals ≠ 0 := by
  decide

/-- Claim C5: the six preconditions of the approval route are checked in
exactly the source order — active approver, transfer exists, not already
completed, not auto-approved, no prior approval by this approver, role
level against the re-resolved rule — the first failing check alone
determines the error response, and nothing is persisted unless all six
pass (the final conjunct: any state change implies every check passed). -/
theorem C5_checks_ordered_first_failure_wins (db : DB) (bankId : Nat) (tid : String)
    (a c : Option String) (now : Nat) :
    (strFalsy a = false → findUser db (a.getD emptyString) bankId = none →
      approve db bankId tid a c now = (db, .err .invalidApprover)) ∧
    (∀ u, strFalsy a = false → findUser db (a.getD emptyString) bankId = some u →
      u.status ≠ "active" →
      approve db bankId tid a c now = (db, .err .invalidApprover)) ∧
    (∀ u, strFalsy a = false → findUser db (a.getD emptyString) bankId = some u →
      u.status = "active" →
      lookupTransfer db (stripFirst tid transferMarker) = none →
      approve db bankId tid a c now = (db, .err .transferNotFound)) ∧
    (∀ u t, strFalsy a = false → findUser db (a.getD emptyString) bankId = some u →
      u.status = "active" →
      lookupTransfer db (stripFirst tid transferMarker) = some t →
      t.status = "completed" →
      approve db bankId tid a c now = (db, .err .alreadyCompleted)) ∧
    (∀ u t, strFalsy a = false → findUser db (a.getD emptyString) bankId = some u →
      u.status = "active" →
      lookupTransfer db (stripFirst tid transferMarker) = some t →
      t.status ≠ "completed" → t.approval_status = "auto_approved" →
      approve db bankId tid a c now = (db, .err .noApprovalNeeded)) ∧
    (∀ u t, strFalsy a = false → findUser db (a.getD emptyString) bankId = some u →
      u.status = "active" →
      lookupTransfer db (stripFirst tid transferMarker) = some t →
      t.status ≠ "completed" → t.approval_status ≠ "auto_approved" →
      (findApproval db tid (a.getD emptyString)).isSome = true →
      approve db bankId tid a c now = (db, .err .duplicateApproval)) ∧
    (∀ u t, strFalsy a = false → findUser db (a.getD emptyString) bankId = some u →
      u.status = "active" →
      lookupTransfer db (stripFirst tid transferMarker) = some t →
      t.status ≠ "completed" → t.approval_status ≠ "auto_approved" →
      (findApproval db tid (a.getD emptyString)).isSome = false →
      findRole db bankId u.role = none →
      approve db bankId tid a c now = (db, .err (.insufficientRoleLevel
        (getApprovalRequirements db bankId t.amount).required_role_level none))) ∧
    (∀ u t role, strFalsy a = false → findUser db (a.getD emptyString) bankId = some u →
      u.status = "active" →
      lookupTransfer db (stripFirst tid transferMarker) = some t →
      t.status ≠ "completed" → t.approval_status ≠ "auto_approved" →
      (findApproval db tid (a.getD emptyString)).isSome = false →
      findRole db bankId u.role = some role →
      role.role_level < (getApprovalRequirements db bankId t.amount).required_role_level →
      approve db bankId tid a c now = (db, .err (.insufficientRoleLevel
        (getApprovalRequirements db bankId t.amount).required_role_level
        (some role.role_level)))) ∧
    ((approve db bankId tid a c now).1 ≠ db →
      ∃ u t role, strFalsy a = false ∧
        findUser db (a.getD emptyString) bankId = some u ∧ u.status = "active" ∧
        lookupTransfer db (stripFirst tid transferMarker) = some t ∧
        t.status ≠ "completed" ∧ t.approval_status ≠ "auto_approved" ∧
        (findApproval db tid (a.getD emptyString)).isSome = false ∧
        findRole db bankId u.role = some role ∧
        ¬ role.role_level < (getApprovalRequirements db bankId t.amount).required_role_level) := by
  refine ⟨?_, ?_, ?_, ?_, ?_, ?_, ?_, ?_, ?_⟩
  · exact approve_of_no_user db bankId tid a c now
  · intro u h hu hs
    exact approve_of_inactive db bankId tid a c now u h hu hs
  · intro u h hu hs ht
    exact approve_of_not_found db bankId tid a c now u h hu hs ht
  · intro u t h hu hs ht hc
    exact approve_of_completed db bankId tid a c now u t h hu hs ht hc
  · intro u t h hu hs ht hc ha
    exact approve_of_auto db bankId tid a c now u t h hu hs ht hc ha
  · intro u t h hu hs ht hc ha hd
    exact approve_of_duplicate db bankId tid a c now u t h hu hs ht hc ha hd
  · intro u t h hu hs ht hc ha hd hr
    exact (approve_of_low_role db bankId tid a c now u t h hu hs ht hc ha
      (by simpa using hd)).1 hr
  · intro u t role h hu hs ht hc ha hd hr hlt
    exact (approve_of_low_role db bankId tid a c now u t h hu hs ht hc ha
      (by simpa using hd)).2 role hr hlt
  · intro hne
    rcases approve_cases db bankId tid a c now (approve db bankId tid a c now).1
        (approve db bankId tid a c now).2 rfl with ⟨e, _, hdb⟩ | h
    · exact absurd hdb hne
    · obtain ⟨u, t, role, h1, h2, h3, h4, h5, h6, h7, h8, h9, _, _, _⟩ := h
      exact ⟨u, t, role, h1, h2, h3, h4, h5, h6, h7, h8, h9⟩

/-- Witness for C5: at the concrete database an unknown approver id fails
the first check with `invalidApprover` and an untouched database. -/
theorem C5_checks_ordered_witness :
    approve dbC1a 1 strTid1 optU9 none 7 = (dbC1a, .err .invalidApprover) :=
  (C5_checks_ordered_first_failure_wins dbC1a 1 strTid1 optU9 none 7).1
    (by decide) (by decide)

/-- Bank 1 with the auto-approve zero-approvals rule. -/
def dbC6 : DB :=
  { bank_users := [userU1, userU2], roles := [roleAdminR], approval_rules := [ruleAutoZero],
    transfers := [], transfer_approvals := [], logic_configured := true }

/-- After initiating a small transfer: auto-approved, processing. -/
def dbC6a : DB :=
  (initiate dbC6 1 reqSmall 0).1

/-- The auto-approved transfer row. -/
def tC6 : TransferRec :=
  mkInitiated dbC6 1 reqSmall 0

/-- After the deferred settlement fires: still `auto_approved`, now
`completed`. -/
def dbC6b : DB :=
  settle dbC6a 1

/-- Claim C6 amended: an approval request aimed at an `auto_approved`
transfer always fails and never changes the database; the reported error
is `NoApprovalNeeded` exactly when the request survives the earlier
checks (valid active approver, transfer not yet completed) — after
settlement the earlier `AlreadyCompleted` check fires instead, and an
invalid approver is reported as such (first-failure-wins ordering). -/
theorem C6_auto_approved_never_accepts (db : DB) (bankId : Nat) (tid : String)
    (a c : Option String) (now : Nat) (t : TransferRec)
    (ht : lookupTransfer db (stripFirst tid transferMarker) = some t)
    (ha : t.approval_status = "auto_approved") :
    (∃ e, approve db bankId tid a c now = (db, .err e)) ∧
    (∀ u, strFalsy a = false → findUser db (a.getD emptyString) bankId = some u →
      u.status = "active" → t.status ≠ "completed" →
      approve db bankId tid a c now = (db, .err .noApprovalNeeded)) := by
  constructor
  · rcases approve_cases db bankId tid a c now (approve db bankId tid a c now).1
        (approve db bankId tid a c now).2 rfl with ⟨e, he, hdb⟩ | h
    · refine ⟨e, ?_⟩
      have hpair : approve db bankId tid a c now =
          ((approve db bankId tid a c now).1, (approve db bankId tid a c now).2) := rfl
      rw [hpair, he, hdb]
    · obtain ⟨u, t2, role, _, _, _, ht2, _, ha2, _, _, _, _, _, _⟩ := h
      have : t2 = t := by
        have := ht2.symm.trans ht
        injection this
      subst this
      exact absurd ha ha2
  · intro u h hu hs hc
    exact approve_of_auto db bankId tid a c now u t h hu hs ht hc ha

/-- Witness for the amended C6 theorem: on the not-yet-settled
auto-approved transfer a valid approver gets `NoApprovalNeeded` and the
database is untouched. -/
theorem C6_auto_approved_witness :
    approve dbC6a 1 strTid1 optU2 none 5 = (dbC6a, .err .noApprovalNeeded) :=
  (C6_auto_approved_never_accepts dbC6a 1 strTid1 optU2 none 5 tC6
    (by decide) (by decide)).2 userU2 (by decide) (by decide) (by decide) (by decide)

/-- Claim C6 as stated is false once the auto-approved transfer settles:
the approval still fails and changes nothing, but the error is
`AlreadyCompleted` (checked before the auto-approval guard), not
`NoApprovalNeeded`. -/
theorem C6_counterexample_completed_auto :
    Reachable dbC6 dbC6b ∧
    dbC6b.transfers.map (fun t => (t.status, t.approval_status)) =
      [("completed", "auto_approved")] ∧
    approve dbC6b 1 strTid1 optU2 none 5 = (dbC6b, .err .alreadyCompleted) ∧
    ApiError.alreadyCompleted ≠ ApiError.noApprovalNeeded := by
  refine ⟨?_, by decide, by decide, by decide⟩
  exact Reachable.tail _ _ _
    (Reachable.tail _ _ _ (Reachable.refl dbC6) (Step.initiate dbC6 1 reqSmall 0))
    (Step.settle dbC6a 1)

/-- After u1 approves transfer 1 of `dbC1a` once more through the alias id
text `01`. -/
def dbC7 : DB :=
  (approve dbC1b 1 strTid01 optU1 none 2).1

/-- Claim C7 evaluated at the failing input for the code bug: the
duplicate check compares the raw id text, so the same approver approves
the same transfer twice — once as `1`, once as `01` (both texts convert
to transaction id 1, pass the foreign key, and address the same row) —
leaving two ledger rows for the pair and a double-counted
`current_approvals`. -/
theorem C7_alias_double_approval :
    sqliteIntOfText strTid1 = some 1 ∧ sqliteIntOfText strTid01 = some 1 ∧
    (approve dbC1a 1 strTid1 optU1 none 1).2 = .ok
      { transfer_id := strTid1, current_approvals := 1, required_approvals := 2,
        status := "pending_approval" } ∧
    (approve dbC1b 1 strTid01 optU1 none 2).2 = .ok
      { transfer_id := strTid01, current_approvals := 2, required_approvals := 2,
        status := "approved" } ∧
    dbC7.transfer_approvals.map (fun r => (r.transfer_id, r.approver_user_id)) =
      [("1", "u1"), ("01", "u1")] ∧
    lookupTransfer dbC7 strTid1 = lookupTransfer dbC7 strTid01 ∧
    dbC7.transfers.map (fun t => t.current_approvals) = [2] ∧
    Reachable dbC1 dbC7 := by
  refine ⟨by decide, by decide, by decide, by decide, by decide, by decide, by decide, ?_⟩
  exact Reachable.tail _ _ _
    (Reachable.tail _ _ _
      (Reachable.tail _ _ _ (Reachable.refl dbC1) (Step.initiate dbC1 1 reqC1 0))
      (Step.approve dbC1a 1 strTid1 optU1 none 1))
    (Step.approve dbC1b 1 strTid01 optU1 none 2)

/-- Claim C9 evaluated at the failing input for the code bug: a duplicate
approval (same raw id text, same approver) is rejected, but the HTTP
status of the `duplicateApproval` error site is 400, not the 409 the
specification (and the repository architecture document) assign to
duplicates. -/
theorem C9_duplicate_approval_http_400 :
    approve dbC1b 1 strTid1 optU1 none 9 = (dbC1b, .err .duplicateApproval) ∧
    ApiError.httpStatus .duplicateApproval = 400 ∧
    ApiError.httpStatus .duplicateApproval ≠ 409 := by
  decide

/-- Claim C8 amended: for an existing transfer the status route reports
`percentage = round(100 * current_approvals / required_approvals)` when
`required_approvals > 0`; when `required_approvals = 0` it reports 0 only
in the `current_approvals = 0` case (the auto-approved case the
specification describes), while the reachable
`required_approvals = 0 < current_approvals` case yields the JS value
`Infinity`, not 0.  The route only reads; it is modelled as a pure
function of the database. -/
theorem C8_percentage_formula (db : DB) (tid : String) (t : TransferRec)
    (ht : lookupTransfer db (stripFirst tid transferMarker) = some t) :
    ∃ resp, getStatus db tid = .ok resp ∧
      resp.current_approvals = t.current_approvals ∧
      resp.required_approvals = t.required_approvals ∧
      (0 < t.required_approvals → resp.percentage =
        .val (round ((100 * (t.current_approvals : ℚ)) / (t.required_approvals : ℚ)))) ∧
      (t.required_approvals = 0 → t.current_approvals = 0 → resp.percentage = .val 0) ∧
      (t.required_approvals = 0 → 0 < t.current_approvals → resp.percentage = .infinite) := by
  have hg : getStatus db tid = .ok
      { transfer_id := t.transaction_id, status := t.status,
        approval_status := t.approval_status, current_approvals := t.current_approvals,
        required_approvals := t.required_approvals,
        approvals := (db.transfer_approvals.filter
          (fun r => r.transfer_id == tid)).filter
            (fun r => (db.bank_users.find? (fun u => u.user_id == r.approver_user_id)).isSome),
        percentage := jsPercentage t.current_approvals t.required_approvals } := by
    unfold getStatus
    simp only [ht]
  refine ⟨_, hg, rfl, rfl, ?_, ?_, ?_⟩
  · intro hr
    show jsPercentage t.current_approvals t.required_approvals = _
    unfold jsPercentage
    rw [if_neg (by omega)]
    have : (t.current_approvals : ℚ) / (t.required_approvals : ℚ) * 100 =
        100 * (t.current_approvals : ℚ) / (t.required_approvals : ℚ) := by
      ring
    rw [this]
  · intro hr hc
    show jsPercentage t.current_approvals t.required_approvals = _
    unfold jsPercentage
    rw [if_pos hr, if_pos hc]
  · intro hr hc
    show jsPercentage t.current_approvals t.required_approvals = _
    unfold jsPercentage
    rw [if_pos hr, if_neg (by omega)]

/-- The single approval-ledger row of the zero-approval scenario. -/
def recC8 : ApprovalRecord :=
  { transfer_id := "1", approver_user_id := "u1", approved_at := 1, comments := "Approved" }

/-- Bank 1 with the custom zero-approval non-auto rule. -/
def dbC8 : DB :=
  { bank_users := [userU1], roles := [roleAdminR], approval_rules := [ruleZeroApprovals],
    transfers := [], transfer_approvals := [], logic_configured := true }

/-- After initiating a small transfer under the zero-approval rule:
pending with `required_approvals = 0`. -/
def dbC8a : DB :=
  (initiate dbC8 1 reqSmall 0).1

/-- After one (accepted) approval: `current_approvals = 1` while
`required_approvals = 0`. -/
def dbC8b : DB :=
  (approve dbC8a 1 strTid1 optU1 none 1).1

/-- Claim C8 as stated is false at this reachable state: with
`required_approvals = 0` and `current_approvals = 1` the JS expression
`Math.round((1 / 0) * 100) || 0` is `Infinity` (truthy, so `|| 0` does
not replace it), not 0. -/
theorem C8_counterexample_infinite_percentage :
    Reachable dbC8 dbC8b ∧
    getStatus dbC8b strTid1 = .ok
      { transfer_id := 1, status := "processing", approval_status := "approved",
        current_approvals := 1, required_approvals := 0, approvals := [recC8],
        percentage := .infinite } ∧
    Percent.infinite ≠ Percent.val 0 := by
  refine ⟨?_, by decide, by decide⟩
  exact Reachable.tail _ _ _
    (Reachable.tail _ _ _ (Reachable.refl dbC8) (Step.initiate dbC8 1 reqSmall 0))
    (Step.approve dbC8a 1 strTid1 optU1 none 1)

/-- The transfer row of `dbC1b`: one of two approvals recorded. -/
def tC1b : TransferRec :=
  { tC1 with current_approvals := 1 }

/-- Witness for the amended C8 theorem on a transfer with two required
approvals and one recorded approval. -/
theorem C8_percentage_witness :
    ∃ resp, getStatus dbC1b strTid1 = .ok resp ∧ resp.current_approvals = 1 := by
  obtain ⟨resp, hg, hc, _, _, _, _⟩ :=
    C8_percentage_formula dbC1b strTid1 tC1b (by decide)
  exact ⟨resp, hg, by rw [hc]; decide⟩

/-- Claim C10 amended: the synchronous and asynchronous router variants
agree only on the request-body validation that precedes any database
access (missing fields, non-positive amount, missing approver id); on
every other path the asynchronous variant responds 500 with the database
untouched, because its `db.get` / `db.run` / `db.all` calls do not exist
on the better-sqlite3 connection module both variants import, while the
synchronous variant executes the workflow. -/
theorem C10_async_variant_diverges (db : DB) (bankId : Nat) (req : InitiateRequest)
    (tid : String) (a c : Option String) (now : Nat) :
    ((asyncInitiate db bankId req now).1 = db) ∧
    ((asyncApprove db bankId tid a c now).1 = db) ∧
    (initiateFieldsMissing req = true →
      asyncInitiate db bankId req now = initiate db bankId req now) ∧
    (initiateFieldsMissing req = false → req.amount.getD 0 ≤ 0 →
      asyncInitiate db bankId req now = initiate db bankId req now) ∧
    (initiateFieldsMissing req = false → ¬ req.amount.getD 0 ≤ 0 →
      asyncInitiate db bankId req now = (db, .err .internalError)) ∧
    (strFalsy a = true →
      asyncApprove db bankId tid a c now = approve db bankId tid a c now) ∧
    (strFalsy a = false →
      asyncApprove db bankId tid a c now = (db, .err .internalError)) ∧
    asyncGetStatus db tid = .err .internalError ∧
    asyncListPending db bankId = .err .internalError := by
  refine ⟨?_, ?_, ?_, ?_, ?_, ?_, ?_, rfl, rfl⟩
  · unfold asyncInitiate
    split
    · rfl
    · split
      · rfl
      · rfl
  · unfold asyncApprove
    split
    · rfl
    · rfl
  · intro h
    rw [initiate_of_missing db bankId req now h]
    unfold asyncInitiate
    simp [h]
  · intro h ha
    rw [initiate_of_nonpos db bankId req now h ha]
    unfold asyncInitiate
    simp [h, ha]
  · intro h ha
    unfold asyncInitiate
    simp [h, ha]
  · intro h
    rw [approve_of_missing db bankId tid a c now h]
    unfold asyncApprove
    simp [h]
  · intro h
    unfold asyncApprove
    simp [h]

/-- Witness for the amended C10 theorem at concrete arguments. -/
theorem C10_async_variant_witness :
    asyncGetStatus dbC1 strTid1 = .err .internalError :=
  (C10_async_variant_diverges dbC1 1 reqC1 strTid1 optU1 none 0).2.2.2.2.2.2.2.1

/-- Claim C10 as stated is false: on a valid initiation request over the
same database the synchronous variant creates the transfer and answers
201 while the asynchronous variant answers 500 having stored nothing. -/
theorem C10_counterexample_variants_differ :
    (initiate dbC1 1 reqC1 0).2 = .ok tC1 ∧
    (asyncInitiate dbC1 1 reqC1 0).2 = .err .internalError ∧
    (initiate dbC1 1 reqC1 0).2 ≠ (asyncInitiate dbC1 1 reqC1 0).2 ∧
    (initiate dbC1 1 reqC1 0).1 ≠ (asyncInitiate dbC1 1 reqC1 0).1 := by
  decide

/-- Witness for C3 at the concrete bank database: the two-approval rule is
the unique match for amount 300000 and is returned. -/
theorem C3_rule_resolution_witness :
    getApprovalRequirements dbC1 1 300000 = ruleTwoApprovals.toResolved := by
  rcases C3_rule_resolution_selects_max_floor dbC1 1 300000 with ⟨he, _⟩ | ⟨r, hr, heq, _⟩
  · exact absurd he (by decide)
  · have hrr : r = ruleTwoApprovals := by
      have h2 : dbC1.approval_rules.filter (ruleMatches 1 300000) = [ruleTwoApprovals] := by
        decide
      rw [h2] at hr
      simpa using hr
    rw [← hrr]
    exact heq
